import Mathlib

/-!
Verification development for the episodic RL data-generation pipeline
(`src/rlhf_data_collection`): state extraction, reward model, data-quality
validation, episode lifecycle and scenario generation.

Modelling conventions (shallow embedding of the Python source):
* Python floats are embedded as `ℚ`; every embedded numeric value is finite
  by construction, so float NaN/inf checks (`np.isfinite`) are vacuous here.
* `np.sqrt` (and hence `np.std`) is embedded as an abstract parameter
  `sq : ℚ → ℚ` standing for the real square root; theorems below hold for
  every such function, and witnesses instantiate it concretely.
* `np.sin(2*np.pi*t)` is embedded as an abstract parameter `sin2pi : ℚ → ℚ`.
* Python dicts whose key sets carry meaning (the extracted state vector) are
  embedded as association lists `List (String × JVal)` in insertion order;
  the per-group key families are pairwise disjoint, so the source's
  `dict.update` is list concatenation here.
* Action payloads are produced by the repository's own policy code and are
  embedded as typed records; the validator's dynamic `isinstance` checks on
  them hold by construction in the typed embedding.
* Exception handlers that merely log and substitute a default are not taken:
  the embedded functions are total on the embedded types, so the `except`
  branches of the source are unreachable here.
-/

namespace DataGen

/-- Dynamic JSON-like value for state-vector entries: the extractor only ever
stores numbers and (nested) lists of numbers. -/
inductive JVal where
  | num (q : ℚ)
  | arr (xs : List JVal)

/-- The extracted state vector: an insertion-ordered association list, as the
Python dict built by `_extract_state_vector`. -/
abbrev StateVec := List (String × JVal)

/-- Keys of a state vector, in insertion order. -/
def stateKeys (s : StateVec) : List String := s.map Prod.fst

/-- `state.get(key)` returning the raw value. -/
def lookupSt (s : StateVec) (k : String) : Option JVal :=
  (s.find? (fun p => p.1 = k)).map Prod.snd

/-- `state.get(key, default)` for a numeric entry (the embedded states store
numbers under numeric keys, so the type mismatch branch never fires). -/
def getNum (s : StateVec) (k : String) (d : ℚ) : ℚ :=
  match lookupSt s k with
  | some (JVal.num q) => q
  | _ => d

/-- A numeric list entry of the state (e.g. `missile_threat_levels`). -/
def getNumList (s : StateVec) (k : String) : List ℚ :=
  match lookupSt s k with
  | some (JVal.arr xs) => xs.map (fun v => match v with | JVal.num q => q | _ => 0)
  | _ => []

/-- A list-of-numeric-lists entry of the state (e.g. `visibility_matrix`). -/
def getMat (s : StateVec) (k : String) : List (List ℚ) :=
  match lookupSt s k with
  | some (JVal.arr rows) =>
      rows.map (fun r => match r with
        | JVal.arr xs => xs.map (fun v => match v with | JVal.num q => q | _ => 0)
        | _ => [])
  | _ => []

/-! ## Snapshot data model (the external `base_data` dict) -/

/-- A position/velocity record (`{'x': …, 'y': …, 'z': …}` with per-key
defaults 0.0). A missing or malformed dict is `none` (the source substitutes
`[0,0,0]` there, which coincides with the all-default record). -/
structure Vec3 where
  x : ℚ := 0
  y : ℚ := 0
  z : ℚ := 0

/-- An attitude quaternion dict with per-key defaults `q0=1, q1=q2=q3=0`. -/
structure Quat where
  q0 : ℚ := 1
  q1 : ℚ := 0
  q2 : ℚ := 0
  q3 : ℚ := 0

/-- Orbital-element dict with per-key defaults 0.0. -/
structure OrbitalElements where
  semi_major_axis : ℚ := 0
  eccentricity : ℚ := 0
  inclination : ℚ := 0
  raan : ℚ := 0
  arg_perigee : ℚ := 0
  mean_anomaly : ℚ := 0

/-- Payload-status dict with the source's per-key defaults. -/
structure PayloadStatus where
  power_consumption : ℚ := 80
  operational : Bool := true
  temperature : ℚ := 25
  pointing_accuracy : ℚ := 1/10
  detection_range : ℚ := 5000

/-- A satellite record of the snapshot. -/
structure Satellite where
  satellite_id : String := ""
  position : Option Vec3 := none
  velocity : Option Vec3 := none
  attitude : Option Quat := none
  orbital_elements : Option OrbitalElements := none
  payload_status : PayloadStatus := {}

/-- Trajectory summary dict; `flight_time` is `Option` because the source uses
default 0.0 for it inside the prediction block and default 1800.0 inside the
remaining-time block. -/
structure Trajectory where
  launch_lat : ℚ := 0
  launch_lon : ℚ := 0
  impact_lat : ℚ := 0
  impact_lon : ℚ := 0
  flight_time : Option ℚ := none
  max_altitude : ℚ := 0

/-- Flight-status dict with per-key defaults. -/
structure FlightStatus where
  status : String := "unknown"
  flight_duration : ℚ := 0

/-- A threat/missile record of the snapshot. -/
structure Missile where
  missile_id : String := ""
  position : Option Vec3 := none
  velocity : Option Vec3 := none
  trajectory : Option Trajectory := none
  threat_level : String := "unknown"
  flight_status : Option FlightStatus := none

/-- One row of the snapshot's visibility relation. -/
structure VisRecord where
  satellite_id : String := ""
  missile_id : String := ""
  has_visibility : Bool := false

/-- The raw snapshot (`base_data`). `collection_time_encoded` is the value of
`_encode_time_of_day` on the snapshot's ISO `collection_time` string
(a fraction of a day in `[0,1)`), precomputed because string/date parsing is
outside the embedded fragment. -/
structure Snapshot where
  satellites : List Satellite := []
  missiles : List Missile := []
  visibility : List VisRecord := []
  collection_time_encoded : ℚ := 0
  simulation_progress : ℚ := 0

/-! ## Configuration (the `rlhf_data_collection` / `data_quality` config) -/

/-- `state_space.satellite_states` flags (absent keys default to `False`). -/
structure SatStateCfg where
  position : Bool := false
  velocity : Bool := false
  attitude : Bool := false
  orbital_elements : Bool := false
  power_status : Bool := false
  payload_status : Bool := false

/-- `state_space.missile_states` flags. -/
structure MisStateCfg where
  position : Bool := false
  velocity : Bool := false
  trajectory_prediction : Bool := false
  threat_level : Bool := false
  flight_phase : Bool := false
  remaining_time : Bool := false

/-- `state_space.environment_states` flags. -/
structure EnvStateCfg where
  time_of_day : Bool := false
  sun_position : Bool := false
  earth_shadow : Bool := false

/-- `state_space.mission_states` flags. -/
structure MissionStateCfg where
  tracking_assignments : Bool := false
  resource_utilization : Bool := false
  coverage_gaps : Bool := false

/-- The whole `state_space` configuration. -/
structure StateSpaceCfg where
  satellite_states : SatStateCfg := {}
  missile_states : MisStateCfg := {}
  environment_states : EnvStateCfg := {}
  mission_states : MissionStateCfg := {}

/-! ## State extraction (`rlhf_data_collector.py`) -/

/-- Python's `str.lower()` on the ASCII level names used by the source. -/
def lowerStr (s : String) : String := String.mk (s.data.map Char.toLower)

/-- `_encode_threat_level`: low→1, medium→2, high→3, critical→4, else 0.
The source lower-cases its argument first. -/
def encodeThreatLevel (t : String) : ℚ :=
  let s := lowerStr t
  if s = "low" then 1
  else if s = "medium" then 2
  else if s = "high" then 3
  else if s = "critical" then 4
  else 0

/-- `_encode_flight_phase`: boost→1, midcourse→2, terminal→3, in_flight→2,
impact→4, else 0. -/
def encodeFlightPhase (p : String) : ℚ :=
  let s := lowerStr p
  if s = "boost" then 1
  else if s = "midcourse" then 2
  else if s = "terminal" then 3
  else if s = "in_flight" then 2
  else if s = "impact" then 4
  else 0

/-- Embed a `Vec3` option as the 3-element list the source builds
(`[0,0,0]` when the dict is missing/malformed). -/
def vec3List (v : Option Vec3) : JVal :=
  match v with
  | some p => JVal.arr [JVal.num p.x, JVal.num p.y, JVal.num p.z]
  | none => JVal.arr [JVal.num 0, JVal.num 0, JVal.num 0]

/-- Embed an attitude option as the 4-element list (`[1,0,0,0]` default). -/
def quatList (a : Option Quat) : JVal :=
  match a with
  | some q => JVal.arr [JVal.num q.q0, JVal.num q.q1, JVal.num q.q2, JVal.num q.q3]
  | none => JVal.arr [JVal.num 1, JVal.num 0, JVal.num 0, JVal.num 0]

/-- `_get_empty_satellite_state`: all six satellite keys, empty. -/
def emptySatelliteState : StateVec :=
  [("satellite_positions", JVal.arr []),
   ("satellite_velocities", JVal.arr []),
   ("satellite_attitudes", JVal.arr []),
   ("satellite_orbital_elements", JVal.arr []),
   ("satellite_power_states", JVal.arr []),
   ("satellite_payload_states", JVal.arr [])]

/-- `_extract_satellite_states`: returns the empty six-key state when the
satellite list is empty, otherwise the flag-gated groups. -/
def extractSatelliteStates (cfg : SatStateCfg) (sats : List Satellite) : StateVec :=
  if sats.isEmpty then emptySatelliteState
  else
    (if cfg.position then
      [("satellite_positions", JVal.arr (sats.map (fun s => vec3List s.position)))]
     else []) ++
    (if cfg.velocity then
      [("satellite_velocities", JVal.arr (sats.map (fun s => vec3List s.velocity)))]
     else []) ++
    (if cfg.attitude then
      [("satellite_attitudes", JVal.arr (sats.map (fun s => quatList s.attitude)))]
     else []) ++
    (if cfg.orbital_elements then
      [("satellite_orbital_elements", JVal.arr (sats.map (fun s =>
        match s.orbital_elements with
        | some o => JVal.arr [JVal.num o.semi_major_axis, JVal.num o.eccentricity,
            JVal.num o.inclination, JVal.num o.raan, JVal.num o.arg_perigee,
            JVal.num o.mean_anomaly]
        | none => JVal.arr [JVal.num 0, JVal.num 0, JVal.num 0, JVal.num 0,
            JVal.num 0, JVal.num 0])))]
     else []) ++
    (if cfg.power_status then
      [("satellite_power_states", JVal.arr (sats.map (fun s =>
        JVal.arr [JVal.num s.payload_status.power_consumption,
          JVal.num (if s.payload_status.operational then 1 else 0),
          JVal.num s.payload_status.temperature])))]
     else []) ++
    (if cfg.payload_status then
      [("satellite_payload_states", JVal.arr (sats.map (fun s =>
        JVal.arr [JVal.num (if s.payload_status.operational then 1 else 0),
          JVal.num s.payload_status.pointing_accuracy,
          JVal.num s.payload_status.detection_range])))]
     else [])

/-- `_get_empty_missile_state`: all six missile keys, empty. -/
def emptyMissileState : StateVec :=
  [("missile_positions", JVal.arr []),
   ("missile_velocities", JVal.arr []),
   ("missile_trajectory_predictions", JVal.arr []),
   ("missile_threat_levels", JVal.arr []),
   ("missile_flight_phases", JVal.arr []),
   ("missile_remaining_times", JVal.arr [])]

/-- `_extract_missile_states`. -/
def extractMissileStates (cfg : MisStateCfg) (missiles : List Missile) : StateVec :=
  if missiles.isEmpty then emptyMissileState
  else
    (if cfg.position then
      [("missile_positions", JVal.arr (missiles.map (fun m => vec3List m.position)))]
     else []) ++
    (if cfg.velocity then
      [("missile_velocities", JVal.arr (missiles.map (fun m => vec3List m.velocity)))]
     else []) ++
    (if cfg.trajectory_prediction then
      [("missile_trajectory_predictions", JVal.arr (missiles.map (fun m =>
        match m.trajectory with
        | some t => JVal.arr [JVal.num t.launch_lat, JVal.num t.launch_lon,
            JVal.num t.impact_lat, JVal.num t.impact_lon,
            JVal.num (t.flight_time.getD 0), JVal.num t.max_altitude]
        | none => JVal.arr [JVal.num 0, JVal.num 0, JVal.num 0, JVal.num 0,
            JVal.num 0, JVal.num 0])))]
     else []) ++
    (if cfg.threat_level then
      [("missile_threat_levels", JVal.arr (missiles.map (fun m =>
        JVal.num (encodeThreatLevel m.threat_level))))]
     else []) ++
    (if cfg.flight_phase then
      [("missile_flight_phases", JVal.arr (missiles.map (fun m =>
        JVal.num (encodeFlightPhase
          ((m.flight_status.map (fun f => f.status)).getD "unknown")))))]
     else []) ++
    (if cfg.remaining_time then
      [("missile_remaining_times", JVal.arr (missiles.map (fun m =>
        let dur := (m.flight_status.map (fun f => f.flight_duration)).getD 0
        let total := ((m.trajectory.bind (fun t => t.flight_time)).getD 1800)
        JVal.num (max 0 (total - dur)))))]
     else [])

/-! ### Visibility matrix (`_create_visibility_matrix`) -/

/-- Stable insertion of `x` into a list ascending under the boolean `le`. -/
def insertLe {α : Type} (le : α → α → Bool) (x : α) : List α → List α
  | [] => [x]
  | y :: ys => if le x y then x :: y :: ys else y :: insertLe le x ys

/-- Insertion sort ascending under `le` (the model of Python's `sorted`: the
lists it is applied to below have pairwise-distinct elements, so stability is
immaterial). -/
def sortLe {α : Type} (le : α → α → Bool) : List α → List α
  | [] => []
  | x :: xs => insertLe le x (sortLe le xs)

/-- Lexicographic comparison of character lists by code point (Python's
string ordering). -/
def charsLe : List Char → List Char → Bool
  | [], _ => true
  | _ :: _, [] => false
  | c :: cs, d :: ds =>
    if c.toNat < d.toNat then true
    else if d.toNat < c.toNat then false
    else charsLe cs ds

/-- Python's `<=` on strings: lexicographic by code point. -/
def strLe (a b : String) : Bool := charsLe a.data b.data

/-- The sorted list of distinct ids observed in a role (the `set` of ids,
then `sorted(...)`). `dedup` keeps first occurrences; the result is the same
set, sorted. -/
def sortedIds (ids : List String) : List String :=
  sortLe strLe ids.dedup

/-- Update entry `(i, j)` of a row-major matrix. -/
def setMat (m : List (List Nat)) (i j v : Nat) : List (List Nat) :=
  m.set i ((m.getD i []).set j v)

/-- `_create_visibility_matrix`: empty when either count is zero; otherwise a
`numSats × numMissiles` zero matrix filled, record by record, at the index of
the record's ids in the sorted observed-id orders (guarded by the matrix
bounds). -/
def createVisibilityMatrix (vis : List VisRecord) (numSats numMissiles : Nat) :
    List (List Nat) :=
  if numSats = 0 ∨ numMissiles = 0 then []
  else
    let satIds := sortedIds (vis.filterMap
      (fun v => if v.satellite_id ≠ "" then some v.satellite_id else none))
    let misIds := sortedIds (vis.filterMap
      (fun v => if v.missile_id ≠ "" then some v.missile_id else none))
    let init := List.replicate numSats (List.replicate numMissiles 0)
    vis.foldl (fun m v =>
      match satIds.indexOf? v.satellite_id, misIds.indexOf? v.missile_id with
      | some i, some j =>
        if i < numSats ∧ j < numMissiles then
          setMat m i j (if v.has_visibility then 1 else 0)
        else m
      | _, _ => m) init

/-- Sum of all entries of the visibility matrix (`covered_pairs`). -/
def matrixSum (m : List (List Nat)) : Nat := (m.map (fun r => r.sum)).sum

/-- `_extract_visibility_states`: the matrix plus the coverage aggregates.
The `else` branch fires exactly when the matrix is the empty list. -/
def extractVisibilityStates (vis : List VisRecord) (numSats numMissiles : Nat) :
    StateVec :=
  let matrix := createVisibilityMatrix vis numSats numMissiles
  let matJ := ("visibility_matrix",
    JVal.arr (matrix.map (fun r => JVal.arr (r.map (fun x => JVal.num (x : ℚ))))))
  if matrix ≠ [] then
    let total_pairs := numSats * numMissiles
    let covered_pairs := matrixSum matrix
    let coverage_ratio : ℚ :=
      if 0 < total_pairs then (covered_pairs : ℚ) / (total_pairs : ℚ) else 0
    let satellite_coverage := matrix.map (fun r => r.sum)
    let missile_coverage : List Nat :=
      match matrix with
      | [] => []
      | r0 :: _ =>
        if 0 < r0.length then
          (List.range r0.length).map (fun j => (matrix.map (fun r => r.getD j 0)).sum)
        else []
    [matJ,
     ("coverage_ratio", JVal.num coverage_ratio),
     ("satellite_coverage_counts",
       JVal.arr (satellite_coverage.map (fun x => JVal.num (x : ℚ)))),
     ("missile_coverage_counts",
       JVal.arr (missile_coverage.map (fun x => JVal.num (x : ℚ))))]
  else
    [matJ,
     ("coverage_ratio", JVal.num 0),
     ("satellite_coverage_counts", JVal.arr []),
     ("missile_coverage_counts", JVal.arr [])]

/-- The `coverage_ratio` entry produced by `_extract_visibility_states`. -/
def coverageRatioOf (vis : List VisRecord) (numSats numMissiles : Nat) : ℚ :=
  getNum (extractVisibilityStates vis numSats numMissiles) "coverage_ratio" 0

/-! ### Environment and mission state -/

/-- `_extract_environment_states`. `sin2pi` embeds `t ↦ np.sin(2*np.pi*t)`. -/
def extractEnvironmentStates (cfg : EnvStateCfg) (sin2pi : ℚ → ℚ) (bd : Snapshot) :
    StateVec :=
  let base : StateVec :=
    (if cfg.time_of_day then
      [("time_of_day", JVal.num bd.collection_time_encoded)] else []) ++
    [("simulation_progress", JVal.num bd.simulation_progress)]
  let withSun : StateVec :=
    base ++
    (if cfg.sun_position then
      -- sun_elevation = np.sin(2π * time_of_day) * 90, the dict lookup
      -- defaulting to 0.0 when the time_of_day key was not produced
      [("sun_elevation", JVal.num (sin2pi (getNum base "time_of_day" 0) * 90))]
     else [])
  withSun ++
    (if cfg.earth_shadow then
      [("earth_shadow",
        JVal.num (if getNum withSun "sun_elevation" 0 < 0 then 1 else 0))]
     else [])

/-- `_extract_mission_states`. -/
def extractMissionStates (cfg : MissionStateCfg) (bd : Snapshot)
    (sats : List Satellite) (missiles : List Missile) : StateVec :=
  [("active_satellites", JVal.num (sats.length : ℚ)),
   ("active_missiles", JVal.num (missiles.length : ℚ)),
   ("mission_progress", JVal.num bd.simulation_progress)] ++
  (if cfg.tracking_assignments then
    [("active_tracking_assignments",
      JVal.num ((bd.visibility.filter (fun v => v.has_visibility)).length : ℚ))]
   else []) ++
  (if cfg.resource_utilization then
    [("power_utilization", JVal.num (
      if 0 < sats.length then
        let total_power := (sats.map (fun s => s.payload_status.power_consumption)).sum
        min 1 (total_power / ((sats.length : ℚ) * 100))
      else 0))]
   else []) ++
  (if cfg.coverage_gaps then
    [("coverage_gap_ratio", JVal.num (
      let uncovered := (missiles.filter (fun m =>
        ¬ bd.visibility.any (fun v =>
          v.missile_id = m.missile_id ∧ v.has_visibility))).length
      if missiles.isEmpty then 0 else (uncovered : ℚ) / (missiles.length : ℚ)))]
   else [])

/-- `_extract_state_vector`: the five groups concatenated in source order
(their key families are pairwise disjoint, so dict update is append). -/
def extractStateVector (cfg : StateSpaceCfg) (sin2pi : ℚ → ℚ) (bd : Snapshot) :
    StateVec :=
  extractSatelliteStates cfg.satellite_states bd.satellites ++
  extractMissileStates cfg.missile_states bd.missiles ++
  extractVisibilityStates bd.visibility bd.satellites.length bd.missiles.length ++
  extractEnvironmentStates cfg.environment_states sin2pi bd ++
  extractMissionStates cfg.mission_states bd bd.satellites bd.missiles

/-! ## Action data model (`expert_policy.py` output shape) -/

/-- A `payload_pointing` sub-dict. -/
structure PayloadPointing where
  target_coordinates : List ℚ := []
  pointing_mode : String := "fixed"
  scan_pattern : String := "none"

/-- A `power_management` sub-dict. -/
structure PowerManagement where
  power_allocation : List (String × ℚ) := []

/-- One per-satellite action dict; `attitude_control` records whether the
`'attitude_control'` key is present (its payload is never read). -/
structure SatAction where
  payload_pointing : Option PayloadPointing := none
  power_management : Option PowerManagement := none
  attitude_control : Bool := false

/-- One element of `mission_actions.target_assignments`. -/
structure Assignment where
  satellite_id : String := ""
  target_id : String := ""
  priority : ℤ := 2
  assignment_duration : ℚ := 300

/-- The `mission_actions` namespace; `coordination_commands` is kept as its
key list (only presence and count are read). -/
structure MissionActions where
  target_assignments : List Assignment := []
  resource_allocation : List (String × ℚ) := []
  coordination_commands : List String := []

/-- A structured action. -/
structure Action where
  satellite_actions : List (String × SatAction) := []
  mission_actions : MissionActions := {}

/-- `pointing_mode` with the source's dict defaults
(`sat_action.get('payload_pointing', {}).get('pointing_mode', 'fixed')`). -/
def pointingModeOf (sa : SatAction) : String :=
  match sa.payload_pointing with
  | some p => p.pointing_mode
  | none => "fixed"

/-- Total power allocation of one satellite action
(`sum(power_allocation.values())`, empty dicts summing to 0). -/
def totalAllocation (sa : SatAction) : ℚ :=
  match sa.power_management with
  | some pm => (pm.power_allocation.map Prod.snd).sum
  | none => 0

/-! ## Reward model (`reward_calculator.py`) -/

/-- `reward_components` flags, per sub-metric. -/
structure TrackCfg where
  coverage_time : Bool := false
  tracking_accuracy : Bool := false
  target_detection : Bool := false

/-- `reward_components.resource_efficiency` flags. -/
structure ResCfg where
  power_consumption : Bool := false
  communication_bandwidth : Bool := false
  computational_load : Bool := false

/-- `reward_components.mission_completion` flags. -/
structure CompCfg where
  threat_neutralization : Bool := false
  response_time : Bool := false
  coverage_completeness : Bool := false

/-- The reward-components configuration. -/
structure RewardCfg where
  tracking_performance : TrackCfg := {}
  resource_efficiency : ResCfg := {}
  mission_completion : CompCfg := {}

/-- `np.clip(x, 0.0, 1.0)`. -/
def clip01 (x : ℚ) : ℚ := max 0 (min 1 x)

/-- `np.mean` of a rational list (callers guard against emptiness). -/
def qmean (xs : List ℚ) : ℚ := xs.sum / (xs.length : ℚ)

/-- Population variance, so that `np.std xs = sq (qvariance xs)` for the
abstract square root `sq`. -/
def qvariance (xs : List ℚ) : ℚ :=
  qmean (xs.map (fun x => (x - qmean xs) ^ 2))

/-- The distinct missile ids with at least one `has_visibility` edge
(the `detected_missiles` / `tracked_missiles` set). -/
def visibleMissileIds (vis : List VisRecord) : List String :=
  ((vis.filter (fun v => v.has_visibility)).filterMap
    (fun v => if v.missile_id ≠ "" then some v.missile_id else none)).dedup

/-- `_calculate_coverage_reward`: coverage ratio weighted by mission time. -/
def coverageReward (state : StateVec) : ℚ :=
  let coverage_ratio := getNum state "coverage_ratio" 0
  let mission_progress := getNum state "mission_progress" 0
  coverage_ratio * (1/2 + 1/2 * mission_progress)

/-- `_calculate_accuracy_reward`: per-satellite pointing-mode scores averaged
(tracking 0.9, scanning 0.6, otherwise 0.3); 0 with no satellite actions. -/
def accuracyReward (action : Action) : ℚ :=
  let sats := action.satellite_actions
  if sats.isEmpty then 0
  else qmean (sats.map (fun p =>
    let mode := pointingModeOf p.2
    if mode = "tracking" then 9/10
    else if mode = "scanning" then 6/10
    else 3/10))

/-- `_calculate_detection_reward`: fraction of active missiles with a
visibility edge; 1.0 when there are no active missiles. -/
def detectionReward (state : StateVec) (bd : Snapshot) : ℚ :=
  let active_missiles := getNum state "active_missiles" 0
  if active_missiles = 0 then 1
  else ((visibleMissileIds bd.visibility).length : ℚ) / active_missiles

/-- `_calculate_tracking_performance_reward`: flag-gated weighted sum,
clipped to `[0,1]`. -/
def trackingPerformanceReward (cfg : TrackCfg) (state : StateVec)
    (action : Action) (bd : Snapshot) : ℚ :=
  clip01
    ((if cfg.coverage_time then 4/10 * coverageReward state else 0) +
     (if cfg.tracking_accuracy then 3/10 * accuracyReward action else 0) +
     (if cfg.target_detection then 3/10 * detectionReward state bd else 0))

/-- `_calculate_power_efficiency_reward`: per-satellite allocation scores
averaged; 1.0 with no satellite actions. -/
def powerEfficiencyReward (action : Action) : ℚ :=
  let sats := action.satellite_actions
  if sats.isEmpty then 1
  else qmean (sats.map (fun p =>
    let t := totalAllocation p.2
    if t ≤ 1 then 1 - t * (1/2) else max 0 (1 - (t - 1))))

/-- `_calculate_communication_efficiency_reward`. -/
def commEfficiencyReward (action : Action) : ℚ :=
  let comm_complexity :=
    (action.satellite_actions.length : ℚ) * (1/10) +
    (action.mission_actions.target_assignments.length : ℚ) * (2/10) +
    (action.mission_actions.coordination_commands.length : ℚ) * (3/10)
  max 0 (1 - comm_complexity / 2)

/-- `_calculate_computational_efficiency_reward`. -/
def compEfficiencyReward (action : Action) : ℚ :=
  let comp_complexity :=
    (action.satellite_actions.map (fun p =>
      (if p.2.attitude_control then (3/10 : ℚ) else 0) +
      (if p.2.payload_pointing.isSome then (2/10 : ℚ) else 0))).sum +
    (action.mission_actions.target_assignments.length : ℚ) * (1/10) +
    (action.mission_actions.resource_allocation.length : ℚ) * (2/10)
  max 0 (1 - comp_complexity / 3)

/-- `_calculate_resource_efficiency_reward`: flag-gated weighted sum,
clipped to `[0,1]`. -/
def resourceEfficiencyReward (cfg : ResCfg) (action : Action) : ℚ :=
  clip01
    ((if cfg.power_consumption then 4/10 * powerEfficiencyReward action else 0) +
     (if cfg.communication_bandwidth then 3/10 * commEfficiencyReward action else 0) +
     (if cfg.computational_load then 3/10 * compEfficiencyReward action else 0))

/-- `_calculate_threat_neutralization_reward`: tracked fraction, re-weighted
by per-missile threat level when the state carries `missile_threat_levels`. -/
def threatNeutralizationReward (state : StateVec) (bd : Snapshot) : ℚ :=
  let active_missiles := getNum state "active_missiles" 0
  if active_missiles = 0 then 1
  else
    let tracked := visibleMissileIds bd.visibility
    let plain := ((tracked.length : ℚ)) / active_missiles
    let levels := getNumList state "missile_threat_levels"
    if levels.isEmpty then plain
    else
      let pairs := bd.missiles.enum.map (fun mi =>
        let weight := levels.getD mi.1 1
        (weight, weight * (if mi.2.missile_id ∈ tracked then 1 else 0)))
      let total_weight := (pairs.map Prod.fst).sum
      if 0 < total_weight then (pairs.map Prod.snd).sum / total_weight else plain

/-- `_calculate_response_time_reward`. -/
def responseTimeReward (state : StateVec) (action : Action) : ℚ :=
  let assignments := action.mission_actions.target_assignments
  if assignments.isEmpty then 1/2
  else
    let active_missiles := getNum state "active_missiles" 0
    if active_missiles = 0 then 1
    else min 1 ((assignments.length : ℚ) / active_missiles)

/-- `_calculate_coverage_completeness_reward`. `sq` embeds `np.sqrt`, so
`np.std xs = sq (qvariance xs)`. -/
def coverageCompletenessReward (sq : ℚ → ℚ) (state : StateVec) : ℚ :=
  let matrix := getMat state "visibility_matrix"
  if matrix.isEmpty then 0
  else
    let satellite_coverage := getNumList state "satellite_coverage_counts"
    let missile_coverage := getNumList state "missile_coverage_counts"
    (if ¬ satellite_coverage.isEmpty then
      let sat_std := sq (qvariance satellite_coverage)
      let sat_mean := qmean satellite_coverage
      if 0 < sat_mean then (1/2) * (1 - min 1 (sat_std / sat_mean)) else 0
     else 0) +
    (if ¬ missile_coverage.isEmpty then
      let uncovered := (missile_coverage.filter (fun c => c = 0)).length
      (1/2) * (1 - (uncovered : ℚ) / (missile_coverage.length : ℚ))
     else 0)

/-- `_calculate_mission_completion_reward`: flag-gated weighted sum, clipped
to `[0,1]`. -/
def missionCompletionReward (cfg : CompCfg) (sq : ℚ → ℚ) (state : StateVec)
    (action : Action) (bd : Snapshot) : ℚ :=
  clip01
    ((if cfg.threat_neutralization then
        5/10 * threatNeutralizationReward state bd else 0) +
     (if cfg.response_time then 3/10 * responseTimeReward state action else 0) +
     (if cfg.coverage_completeness then
        2/10 * coverageCompletenessReward sq state else 0))

/-- `_calculate_false_alarm_penalty`: structurally present, always 0 (no
false-alarm telemetry exists upstream). -/
def falseAlarmPenalty : ℚ := 0

/-- `_calculate_resource_waste_penalty`: 0.5 × excess beyond 1.0, summed over
satellite actions. -/
def resourceWastePenalty (action : Action) : ℚ :=
  (action.satellite_actions.map (fun p =>
    let t := totalAllocation p.2
    if 1 < t then (t - 1) * (1/2) else 0)).sum

/-- `_calculate_mission_failure_penalty`. -/
def missionFailurePenalty (state : StateVec) : ℚ :=
  let coverage_gap_ratio := getNum state "coverage_gap_ratio" 0
  let base := coverage_gap_ratio * (3/10)
  let active_missiles := getNum state "active_missiles" 0
  let active_assignments := getNum state "active_tracking_assignments" 0
  if 0 < active_missiles ∧ active_assignments = 0 then base + 1/2 else base

/-- `_calculate_penalty_terms`. -/
def penaltyTerms (state : StateVec) (action : Action) : ℚ :=
  falseAlarmPenalty + resourceWastePenalty action + missionFailurePenalty state

/-- `calculate_total_reward`: weighted component sum minus penalties, with the
fixed weights 0.4 / 0.3 / 0.3. -/
def calculateTotalReward (cfg : RewardCfg) (sq : ℚ → ℚ) (state : StateVec)
    (action : Action) (bd : Snapshot) : ℚ :=
  4/10 * trackingPerformanceReward cfg.tracking_performance state action bd +
  3/10 * resourceEfficiencyReward cfg.resource_efficiency action +
  3/10 * missionCompletionReward cfg.mission_completion sq state action bd -
  penaltyTerms state action

/-! ## Data quality gate (`data_quality_validator.py`) -/

/-- `data_quality.completeness_checks` configuration. -/
structure CompletenessCfg where
  required_fields : List String := []
  optional_fields : List String := []
  missing_data_threshold : ℚ := 1/20

/-- `data_quality.validation_rules` flags. -/
structure ValidationRulesCfg where
  position_bounds : Bool := false
  velocity_limits : Bool := false
  attitude_constraints : Bool := false

/-- `data_quality.anomaly_detection` flags. -/
structure AnomalyCfg where
  statistical_outliers : Bool := false
  physical_constraints : Bool := false
  temporal_anomalies : Bool := false

/-- The whole `data_quality` configuration. -/
structure QualityCfg where
  completeness_checks : CompletenessCfg := {}
  validation_rules : ValidationRulesCfg := {}
  anomaly_detection : AnomalyCfg := {}

/-- The result of `_check_data_completeness`. -/
structure CompletenessResult where
  is_complete : Bool
  completeness_score : ℚ
  missing_fields : List String
  present_fields : List String
  required_completeness : ℚ
  optional_completeness : ℚ

/-- The result of `_validate_data_format`. -/
structure FormatResult where
  is_valid : Bool
  format_errors : List String

/-- The validation result dict; `completeness` is the entry the pipeline puts
under `quality_metrics['completeness']`, `anomaly_score` the one under
`quality_metrics['anomaly_score']` (absent when anomaly detection is off). -/
structure ValidationResult where
  is_valid : Bool
  validation_score : ℚ
  errors : List String
  warnings : List String
  anomalies : List String
  completeness : CompletenessResult
  anomaly_score : Option ℚ := none

/-- One record of the validator's rolling history (oldest first). -/
structure HistRecord where
  timestamp : ℚ
  reward : ℚ
  state : StateVec
  validation_score : ℚ

/-- The validator's mutable state. -/
structure ValidatorState where
  historical_data : List HistRecord := []

/-- A data point's `info` payload. `action_result` stays `none` in the
embedded fragment (no actuator is attached, matching `execute_action=False`). -/
structure Info where
  base_data : Snapshot
  simulation_progress : ℚ := 0
  action_result : Option Bool := none
  validation_result : Option ValidationResult := none

/-- `RLHFDataPoint` (timestamps as simulation seconds). -/
structure RLHFDataPoint where
  timestamp : ℚ
  state : StateVec
  action : Action
  reward : ℚ
  next_state : StateVec
  done : Bool
  info : Info

/-- Presence of a dotted path inside the typed `Action`
(`_check_field_exists` continued below attribute `action`). -/
def actionFieldExists (a : Action) (rest : List String) : Bool :=
  match rest with
  | [] => true
  | ["satellite_actions"] => true
  | ["mission_actions"] => true
  | ["mission_actions", "target_assignments"] => true
  | ["mission_actions", "resource_allocation"] => true
  | ["mission_actions", "coordination_commands"] => true
  | ["satellite_actions", sid] => a.satellite_actions.any (fun p => p.1 = sid)
  | _ => false

/-- `field_path.split('.')` on the character level (splitting an empty path
yields `[""]`, as in Python). -/
def splitDotAux : List Char → List Char → List (List Char)
  | [], acc => [acc.reverse]
  | c :: cs, acc =>
    if c = '.' then acc.reverse :: splitDotAux cs []
    else splitDotAux cs (c :: acc)

/-- `field_path.split('.')`. -/
def splitDot (s : String) : List String :=
  (splitDotAux s.data []).map String.mk

/-- `_check_field_exists`: dotted-path lookup, specialized to the embedded
record shape (attribute access on the data point, then dict lookups; every
embedded value is non-None, so the final `is not None` test is `true`). -/
def checkFieldExists (dp : RLHFDataPoint) (field : String) : Bool :=
  match splitDot field with
  | ["timestamp"] => true
  | ["state"] => true
  | ["action"] => true
  | ["reward"] => true
  | ["next_state"] => true
  | ["done"] => true
  | ["info"] => true
  | "state" :: [k] => (lookupSt dp.state k).isSome
  | "next_state" :: [k] => (lookupSt dp.next_state k).isSome
  | "action" :: rest => actionFieldExists dp.action rest
  | _ => false

/-- `_check_data_completeness`. -/
def checkDataCompleteness (cfg : CompletenessCfg) (dp : RLHFDataPoint) :
    CompletenessResult :=
  let missing := cfg.required_fields.filter (fun f => ¬ checkFieldExists dp f)
  let present := cfg.required_fields.filter (fun f => checkFieldExists dp f)
  let optional_present :=
    (cfg.optional_fields.filter (fun f => checkFieldExists dp f)).length
  let required_completeness : ℚ :=
    if cfg.required_fields.isEmpty then 1
    else (present.length : ℚ) / (cfg.required_fields.length : ℚ)
  let optional_completeness : ℚ :=
    if cfg.optional_fields.isEmpty then 1
    else (optional_present : ℚ) / (cfg.optional_fields.length : ℚ)
  let overall := 8/10 * required_completeness + 2/10 * optional_completeness
  { is_complete := missing.isEmpty ∧ 1 - cfg.missing_data_threshold ≤ overall
    completeness_score := overall
    missing_fields := missing
    present_fields := present
    required_completeness := required_completeness
    optional_completeness := optional_completeness }

/-- Format check of one list of position-style rows: a row must be a list of
exactly `n` finite numbers (finiteness holds by construction over `ℚ`). -/
def checkNumRows (label : String) (n : Nat) (rows : List JVal) : List String :=
  (rows.enum.map (fun p =>
    match p.2 with
    | JVal.arr xs =>
      if xs.length ≠ n then ["invalid_" ++ label ++ "_" ++ toString p.1]
      else if xs.all (fun x => match x with | JVal.num _ => true | _ => false)
        then []
      else ["invalid_" ++ label ++ "_values_" ++ toString p.1]
    | JVal.num _ => ["invalid_" ++ label ++ "_" ++ toString p.1])).flatten

/-- `_validate_state_format`: satellite/missile positions are triples of
finite numbers, visibility rows are lists of int/bool entries (the embedding
stores all scalars as `ℚ`, erasing the int/float distinction). -/
def validateStateFormat (state : StateVec) : List String :=
  (match lookupSt state "satellite_positions" with
   | none => []
   | some (JVal.num _) => ["invalid_satellite_positions_type"]
   | some (JVal.arr rows) => checkNumRows "satellite_position" 3 rows) ++
  (match lookupSt state "missile_positions" with
   | none => []
   | some (JVal.num _) => ["invalid_missile_positions_type"]
   | some (JVal.arr rows) => checkNumRows "missile_position" 3 rows) ++
  (match lookupSt state "visibility_matrix" with
   | none => []
   | some (JVal.num _) => ["invalid_visibility_matrix_type"]
   | some (JVal.arr rows) =>
     (rows.enum.map (fun p =>
       match p.2 with
       | JVal.arr xs =>
         if xs.all (fun x => match x with | JVal.num _ => true | _ => false)
           then []
         else ["invalid_visibility_matrix_values_" ++ toString p.1]
       | JVal.num _ => ["invalid_visibility_matrix_row_" ++ toString p.1])).flatten)

/-- `_validate_action_format`: on the typed action embedding every
`isinstance` test holds by construction and every assignment record carries
both `satellite_id` and `target_id`, so no format error can arise. -/
def validateActionFormat (_action : Action) : List String := []

/-- `_validate_data_format`: a typed data point always has its attributes, a
`ℚ` reward is a finite number and a `ℚ` timestamp is a time value, so only
the state/action sub-checks can contribute errors. -/
def validateDataFormat (dp : RLHFDataPoint) : FormatResult :=
  let errs := validateStateFormat dp.state ++ validateActionFormat dp.action
  { is_valid := errs.isEmpty, format_errors := errs }

/-- `_check_position_bounds`; `sq` embeds `np.sqrt`. -/
def checkPositionBounds (sq : ℚ → ℚ) (state : StateVec) : List String :=
  let earth_radius : ℚ := 6371
  let min_altitude : ℚ := 200
  let max_altitude : ℚ := 50000
  ((getMat state "satellite_positions").enum.map (fun p =>
    if 3 ≤ p.2.length then
      let x := p.2.getD 0 0
      let y := p.2.getD 1 0
      let z := p.2.getD 2 0
      let altitude := sq (x * x + y * y + z * z) - earth_radius
      if altitude < min_altitude then
        ["satellite_" ++ toString p.1 ++ "_altitude_too_low"]
      else if max_altitude < altitude then
        ["satellite_" ++ toString p.1 ++ "_altitude_too_high"]
      else []
    else [])).flatten ++
  ((getMat state "missile_positions").enum.map (fun p =>
    if 3 ≤ p.2.length then
      let x := p.2.getD 0 0
      let y := p.2.getD 1 0
      let z := p.2.getD 2 0
      let altitude := sq (x * x + y * y + z * z) - earth_radius
      if altitude < -1 then ["missile_" ++ toString p.1 ++ "_underground"]
      else if max_altitude < altitude then
        ["missile_" ++ toString p.1 ++ "_altitude_too_high"]
      else []
    else [])).flatten

/-- `_check_velocity_limits`. -/
def checkVelocityLimits (sq : ℚ → ℚ) (state : StateVec) : List String :=
  let max_orbital_vel : ℚ := 15
  let max_missile_vel : ℚ := 8
  ((getMat state "satellite_velocities").enum.map (fun p =>
    if 3 ≤ p.2.length then
      let vx := p.2.getD 0 0
      let vy := p.2.getD 1 0
      let vz := p.2.getD 2 0
      if max_orbital_vel < sq (vx * vx + vy * vy + vz * vz) then
        ["satellite_" ++ toString p.1 ++ "_speed_too_high"]
      else []
    else [])).flatten ++
  ((getMat state "missile_velocities").enum.map (fun p =>
    if 3 ≤ p.2.length then
      let vx := p.2.getD 0 0
      let vy := p.2.getD 1 0
      let vz := p.2.getD 2 0
      if max_missile_vel < sq (vx * vx + vy * vy + vz * vz) then
        ["missile_" ++ toString p.1 ++ "_speed_too_high"]
      else []
    else [])).flatten

/-- `_check_attitude_constraints`. -/
def checkAttitudeConstraints (sq : ℚ → ℚ) (state : StateVec) : List String :=
  let tolerance : ℚ := 1/100
  ((getMat state "satellite_attitudes").enum.map (fun p =>
    if 4 ≤ p.2.length then
      let q0 := p.2.getD 0 0
      let q1 := p.2.getD 1 0
      let q2 := p.2.getD 2 0
      let q3 := p.2.getD 3 0
      let norm := sq (q0 * q0 + q1 * q1 + q2 * q2 + q3 * q3)
      if tolerance < |norm - 1| then
        ["satellite_" ++ toString p.1 ++ "_quaternion_norm_invalid"]
      else []
    else [])).flatten

/-- `_check_physical_constraints` (warnings only). -/
def checkPhysicalConstraints (rules : ValidationRulesCfg) (sq : ℚ → ℚ)
    (dp : RLHFDataPoint) : List String :=
  (if rules.position_bounds then checkPositionBounds sq dp.state else []) ++
  (if rules.velocity_limits then checkVelocityLimits sq dp.state else []) ++
  (if rules.attitude_constraints then checkAttitudeConstraints sq dp.state else [])

/-- `_check_temporal_consistency` (warnings; first point exempt). -/
def checkTemporalConsistency (vst : ValidatorState) (dp : RLHFDataPoint) :
    List String :=
  match vst.historical_data.getLast? with
  | none => []
  | some last =>
    let time_gap := dp.timestamp - last.timestamp
    if 3600 < time_gap then ["time_gap_too_large"]
    else if time_gap < 1 then ["time_step_too_small"]
    else []

/-- `_detect_statistical_outliers`: 3-sigma rule on the reward against the
trailing history (`np.std = sq ∘ qvariance`). -/
def detectStatisticalOutliers (sq : ℚ → ℚ) (vst : ValidatorState)
    (dp : RLHFDataPoint) : List String :=
  let historical_rewards := vst.historical_data.map (fun r => r.reward)
  if historical_rewards.length < 5 then []
  else
    let mean_reward := qmean historical_rewards
    let std_reward := sq (qvariance historical_rewards)
    if 3 * std_reward < |dp.reward - mean_reward| then ["reward_outlier"] else []

/-- `_detect_physical_anomalies`: satellite position jumps beyond
15 km/s × 300 s against the last history record. -/
def detectPhysicalAnomalies (sq : ℚ → ℚ) (vst : ValidatorState)
    (dp : RLHFDataPoint) : List String :=
  match lookupSt dp.state "satellite_positions", vst.historical_data.getLast? with
  | some _, some last =>
    let current_positions := getMat dp.state "satellite_positions"
    let last_positions := getMat last.state "satellite_positions"
    ((current_positions.zip last_positions).enum.map (fun p =>
      if 3 ≤ p.2.1.length ∧ 3 ≤ p.2.2.length then
        let d := (p.2.1.zip p.2.2).map (fun cl => (cl.1 - cl.2) * (cl.1 - cl.2))
        if (4500 : ℚ) < sq d.sum then
          ["satellite_" ++ toString p.1 ++ "_position_jump"]
        else []
      else [])).flatten
  | _, _ => []

/-- `_detect_temporal_anomalies`: time regression against the last record. -/
def detectTemporalAnomalies (vst : ValidatorState) (dp : RLHFDataPoint) :
    List String :=
  match vst.historical_data.getLast? with
  | none => []
  | some last => if dp.timestamp < last.timestamp then ["time_regression"] else []

/-- `_detect_anomalies`: silent until the rolling history holds at least 10
records; otherwise the flag-gated detectors, with score `min 1 (count/10)`. -/
def detectAnomalies (cfg : AnomalyCfg) (sq : ℚ → ℚ) (vst : ValidatorState)
    (dp : RLHFDataPoint) : List String × ℚ :=
  if vst.historical_data.length < 10 then ([], 0)
  else
    let anomalies :=
      (if cfg.statistical_outliers then detectStatisticalOutliers sq vst dp
       else []) ++
      (if cfg.physical_constraints then detectPhysicalAnomalies sq vst dp
       else []) ++
      (if cfg.temporal_anomalies then detectTemporalAnomalies vst dp else [])
    (anomalies, min 1 ((anomalies.length : ℚ) / 10))

/-- `_calculate_quality_score`: 1.0 minus 0.3/0.1/0.05 per
error/warning/anomaly, times the completeness score, clamped to `[0,1]`
(the pipeline always records a completeness metric, so the multiplication is
unconditional). -/
def calculateQualityScore (errors warnings anomalies : List String)
    (completeness_score : ℚ) : ℚ :=
  max 0 (min 1 ((1 - (errors.length : ℚ) * (3/10)
    - (warnings.length : ℚ) * (1/10)
    - (anomalies.length : ℚ) * (5/100)) * completeness_score))

/-- `_update_historical_data`: append, then keep the last 1000 records. -/
def updateHistoricalData (vst : ValidatorState) (dp : RLHFDataPoint)
    (score : ℚ) : ValidatorState :=
  let h := vst.historical_data ++
    [{ timestamp := dp.timestamp, reward := dp.reward, state := dp.state,
       validation_score := score }]
  { historical_data := if 1000 < h.length then h.drop (h.length - 1000) else h }

/-- `validate_rlhf_data_point`: the full pipeline — completeness, format,
physics, temporal, flag-gated anomaly detection, quality score, history
update. Returns the result and the updated validator state. -/
def validateRLHFDataPoint (cfg : QualityCfg) (sq : ℚ → ℚ)
    (vst : ValidatorState) (dp : RLHFDataPoint) :
    ValidationResult × ValidatorState :=
  let completeness := checkDataCompleteness cfg.completeness_checks dp
  let fmt := validateDataFormat dp
  let warnings := checkPhysicalConstraints cfg.validation_rules sq dp ++
    checkTemporalConsistency vst dp
  let anomalyPair := detectAnomalies cfg.anomaly_detection sq vst dp
  let anomalies :=
    if cfg.anomaly_detection.statistical_outliers then anomalyPair.1 else []
  let errors := completeness.missing_fields ++ fmt.format_errors
  let score := calculateQualityScore errors warnings anomalies
    completeness.completeness_score
  let result : ValidationResult :=
    { is_valid := completeness.is_complete && fmt.is_valid
      validation_score := score
      errors := errors
      warnings := warnings
      anomalies := anomalies
      completeness := completeness
      anomaly_score :=
        if cfg.anomaly_detection.statistical_outliers then some anomalyPair.2
        else none }
  (result, updateHistoricalData vst dp score)

/-! ## Episode manager (`RLHFDataCollector`) -/

/-- An episode record (the external `metadata` dict is outside the embedded
fragment). -/
structure Episode where
  episode_id : String
  scenario_type : String
  start_time : ℚ
  end_time : Option ℚ := none
  data_points : List RLHFDataPoint := []
  total_reward : ℚ := 0
  success : Bool := false

/-- The running `collection_stats` dict. -/
structure CollectionStats where
  total_data_points : Nat := 0
  valid_data_points : Nat := 0
  invalid_data_points : Nat := 0
  average_reward : ℚ := 0
  average_quality_score : ℚ := 0

/-- The collector's mutable state. -/
structure CollectorState where
  current_episode : Option Episode := none
  episodes : List Episode := []
  state_history : List StateVec := []
  action_history : List Action := []
  reward_history : List ℚ := []
  validation_history : List ValidationResult := []
  collection_stats : CollectionStats := {}
  validator : ValidatorState := {}

/-- The bundled `rlhf_data_collection` / `data_quality` configuration. -/
structure RLHFConfig where
  state_space : StateSpaceCfg := {}
  reward_components : RewardCfg := {}
  data_quality : QualityCfg := {}

/-- `start_episode`: unconditionally installs a fresh open episode (there is
no check for an already-open one). `now_str` is the wall-clock id fragment
`datetime.now().strftime(...)`; `sim_time` the simulation clock. -/
def startEpisode (st : CollectorState) (scenario_type : String)
    (now_str : String) (sim_time : ℚ) : String × CollectorState :=
  let episode_id := "episode_" ++ now_str ++ "_" ++ scenario_type
  let ep : Episode :=
    { episode_id := episode_id, scenario_type := scenario_type
      start_time := sim_time }
  (episode_id, { st with current_episode := some ep })

/-- `_predict_next_state`: a copy with `mission_progress` bumped by 0.01 when
present. -/
def predictNextState (s : StateVec) : StateVec :=
  s.map (fun p =>
    if p.1 = "mission_progress" then
      (p.1, match p.2 with | JVal.num q => JVal.num (q + 1/100) | v => v)
    else p)

/-- `_update_average_statistics` applied to a stats record. -/
def updateAverageStatistics (stats : CollectionStats) (rewards : List ℚ)
    (validations : List ValidationResult) : CollectionStats :=
  let s1 :=
    if rewards.isEmpty then stats
    else { stats with average_reward := qmean rewards }
  if validations.isEmpty then s1
  else
    let avgq := qmean (validations.map (fun v => v.validation_score))
    { s1 with average_quality_score := avgq }

/-- `collect_rlhf_data_point` (with `execute_action=False`, as in the no-
actuator configuration): `none` on snapshot-acquisition failure, otherwise
extract → reward → next-state → done → validate → stats → append to the open
episode and histories. `sim_finished` / `coll_finished` are the time
manager's terminal flags and `sim_progress` its progress reading. -/
def collectRLHFDataPoint (cfg : RLHFConfig) (sq sin2pi : ℚ → ℚ)
    (st : CollectorState) (action : Action) (base_data : Option Snapshot)
    (current_time : ℚ) (sim_finished coll_finished : Bool) (sim_progress : ℚ) :
    Option RLHFDataPoint × CollectorState :=
  match base_data with
  | none => (none, st)
  | some bd =>
    let state := extractStateVector cfg.state_space sin2pi bd
    let reward := calculateTotalReward cfg.reward_components sq state action bd
    let next_state := predictNextState state
    let done := sim_finished || coll_finished || bd.missiles.isEmpty
    let dp0 : RLHFDataPoint :=
      { timestamp := current_time, state := state, action := action
        reward := reward, next_state := next_state, done := done
        info := { base_data := bd, simulation_progress := sim_progress } }
    let vpair := validateRLHFDataPoint cfg.data_quality sq st.validator dp0
    let vr := vpair.1
    let dp := { dp0 with info := { dp0.info with validation_result := some vr } }
    let stats0 := st.collection_stats
    let stats1 :=
      { stats0 with
        total_data_points := stats0.total_data_points + 1
        valid_data_points :=
          if vr.is_valid then stats0.valid_data_points + 1
          else stats0.valid_data_points
        invalid_data_points :=
          if vr.is_valid then stats0.invalid_data_points
          else stats0.invalid_data_points + 1 }
    let current' := match st.current_episode with
      | some ep => some { ep with
          data_points := ep.data_points ++ [dp]
          total_reward := ep.total_reward + reward }
      | none => none
    let rewards' := st.reward_history ++ [reward]
    let validations' := st.validation_history ++ [vr]
    (some dp,
     { st with
       current_episode := current'
       state_history := st.state_history ++ [state]
       action_history := st.action_history ++ [action]
       reward_history := rewards'
       validation_history := validations'
       collection_stats := updateAverageStatistics stats1 rewards' validations'
       validator := vpair.2 })

/-- `end_episode`: freezes the open episode (end time, success flag), appends
it to the completed collection and clears the slot; `none` when no episode is
open. -/
def endEpisode (st : CollectorState) (success : Bool) (sim_time : ℚ) :
    Option Episode × CollectorState :=
  match st.current_episode with
  | none => (none, st)
  | some ep =>
    let fin := { ep with end_time := some sim_time, success := success }
    (some fin,
     { st with current_episode := none, episodes := st.episodes ++ [fin] })

/-- One driver-loop step's inputs to `collect_rlhf_data_point`; a present
`snapshot` models a successful acquisition. -/
structure CollectStep where
  action : Action := {}
  snapshot : Snapshot := {}
  time : ℚ := 0
  sim_finished : Bool := false
  coll_finished : Bool := false
  progress : ℚ := 0

/-- A sequence of successful `collect_rlhf_data_point` calls. -/
def collectMany (cfg : RLHFConfig) (sq sin2pi : ℚ → ℚ) (st : CollectorState) :
    List CollectStep → CollectorState
  | [] => st
  | step :: rest =>
    collectMany cfg sq sin2pi
      (collectRLHFDataPoint cfg sq sin2pi st step.action (some step.snapshot)
        step.time step.sim_finished step.coll_finished step.progress).2 rest

/-! ## Expert policy (`expert_policy.py`): threat priority and ranking -/

/-- `_get_missile_priority`: the source reads `missile_threat_levels` and
`missile_positions` from the state into locals it never uses, then returns
the default priority 2 for every missile ("简化版本：返回默认优先级"). -/
def getMissilePriority (missile : Missile) (state : StateVec) : ℤ :=
  let _missile_threat_levels := getNumList state "missile_threat_levels"
  let _missiles := lookupSt state "missile_positions"
  let _missile_id := missile.missile_id
  2

/-- Stable insertion for a descending sort on priority: the inserted element
goes before the first element of not-larger priority, which is Python's
`sorted(key=…, reverse=True)` tie behaviour. -/
def insertByPriorityDesc (state : StateVec) (m : Missile) :
    List Missile → List Missile
  | [] => [m]
  | y :: ys =>
    if getMissilePriority y state ≤ getMissilePriority m state then m :: y :: ys
    else y :: insertByPriorityDesc state m ys

/-- `_sort_missiles_by_threat`: stable sort, descending by
`_get_missile_priority`. -/
def sortMissilesByThreat (missiles : List Missile) (state : StateVec) :
    List Missile :=
  missiles.foldr (insertByPriorityDesc state) []

/-! ## Scenario generator (`scenario_generator.py`): evaluation sets -/

/-- The evaluation grid's difficulty levels, in source order. -/
def difficultyLevels : List String := ["easy", "medium", "hard", "extreme"]

/-- The evaluation grid's scenario types, in source order. -/
def scenarioTypes : List String :=
  ["single_threat", "multiple_threats", "saturation_attack", "evasive_targets"]

/-- The difficulty-major cross product the nested loops traverse. -/
def evalCombos : List (String × String) :=
  difficultyLevels.flatMap (fun d => scenarioTypes.map (fun t => (d, t)))

/-- One appending step of the evaluation loop: every `break` merely stops
further appends once `num_scenarios` entries exist, so each visit appends
exactly when the accumulated list is still short. -/
def evalGenStep (n : Nat) (acc : List (String × String))
    (c : String × String) : List (String × String) :=
  if n ≤ acc.length then acc else acc ++ [c]

/-- `generate_evaluation_scenarios`, projected to the (difficulty, type)
pairs of the emitted `ScenarioConfig`s (the remaining fields are sampled
per scenario and do not affect grid coverage). -/
def generateEvaluationScenarios (n : Nat) : List (String × String) :=
  let per := max 1 (n / (difficultyLevels.length * scenarioTypes.length))
  (evalCombos.flatMap (fun c => List.replicate per c)).foldl (evalGenStep n) []

/-! # Theorems -/

/-! ## C8: evaluation-set grid coverage -/

/-- The guarded append loop keeps the first `n` pending items. -/
theorem evalGen_foldl_eq_take (n : Nat) :
    ∀ (todo acc : List (String × String)),
      todo.foldl (evalGenStep n) acc = acc ++ todo.take (n - acc.length) := by
  intro todo
  induction todo with
  | nil => intro acc; simp
  | cons c rest ih =>
    intro acc
    by_cases h : n ≤ acc.length
    · have hz : n - acc.length = 0 := Nat.sub_eq_zero_of_le h
      have hstep : evalGenStep n acc c = acc := by simp [evalGenStep, h]
      rw [List.foldl_cons, hstep, ih acc, hz]
      simp [hz]
    · have hlt : acc.length < n := Nat.lt_of_not_le h
      have hstep : evalGenStep n acc c = acc ++ [c] := by simp [evalGenStep, h]
      rw [List.foldl_cons, hstep, ih (acc ++ [c])]
      have hpos : 0 < n - acc.length := Nat.sub_pos_of_lt hlt
      obtain ⟨k, hk⟩ := Nat.exists_eq_add_of_lt hpos
      have h1 : n - (acc ++ [c]).length = k := by
        simp only [List.length_append, List.length_singleton]
        omega
      have h2 : n - acc.length = k + 1 := by omega
      rw [h1, h2, List.take_succ_cons, List.append_assoc]
      rfl

/-- Every element of `l` whose block starts before index `n` survives the
truncation of the `per`-fold repetition to `n` entries. -/
theorem mem_take_flatMap_replicate (per : Nat) (hper : 1 ≤ per) :
    ∀ (l : List (String × String)) (n : Nat),
      (l.length - 1) * per + 1 ≤ n → ∀ c ∈ l,
        c ∈ (l.flatMap (fun x => List.replicate per x)).take n := by
  intro l
  induction l with
  | nil => intro n _ c hc; cases hc
  | cons a rest ih =>
    intro n hn c hc
    have hn1 : 1 ≤ n := le_trans (Nat.le_add_left 1 _) hn
    rw [List.flatMap_cons, List.take_append_eq_append_take]
    rcases List.mem_cons.mp hc with rfl | hmem
    · apply List.mem_append_left
      rw [List.take_replicate]
      exact List.mem_replicate.mpr ⟨by omega, rfl⟩
    · apply List.mem_append_right
      have hrl : 1 ≤ rest.length := List.length_pos.mpr (List.ne_nil_of_mem hmem)
      have hlen : (a :: rest).length - 1 = rest.length := by simp
      rw [hlen] at hn
      have hmul : (rest.length - 1) * per + per = rest.length * per := by
        have := Nat.sub_one_mul rest.length per
        have hp : per ≤ rest.length * per := Nat.le_mul_of_pos_left per hrl
        omega
      have hrec : (rest.length - 1) * per + 1 ≤ n - (List.replicate per a).length := by
        rw [List.length_replicate]
        omega
      exact ih (n - (List.replicate per a).length) hrec c hmem

/-- C8 (counterexample): for the requested size n = 1 (which satisfies
n ≥ 1) the generated evaluation set is the single combination
(easy, single_threat); the grid combination (extreme, evasive_targets)
does not appear, so the full cross product is not covered for every n ≥ 1. -/
theorem c8_counterexample :
    1 ≤ (1 : Nat) ∧
    ("extreme", "evasive_targets") ∈ evalCombos ∧
    generateEvaluationScenarios 1 = [("easy", "single_threat")] ∧
    ("extreme", "evasive_targets") ∉ generateEvaluationScenarios 1 := by
  refine ⟨le_refl 1, by decide, by decide, by decide⟩

/-- C8 (amended): when the requested size is at least 16 (the size of the
4 × 4 difficulty × type grid), `generate_evaluation_scenarios` emits every
combination of the four difficulty levels and four scenario types at least
once; for smaller sizes only the first n combinations in difficulty-major
order appear. -/
theorem c8_eval_grid_coverage (n : Nat) (hn : 16 ≤ n) :
    ∀ c ∈ evalCombos, c ∈ generateEvaluationScenarios n := by
  intro c hc
  have hdiv : 1 ≤ n / 16 := (Nat.one_le_div_iff (by norm_num)).mpr hn
  have hper : max 1 (n / (difficultyLevels.length * scenarioTypes.length))
      = n / 16 := by
    simp only [difficultyLevels, scenarioTypes, List.length_cons,
      List.length_nil]
    omega
  unfold generateEvaluationScenarios
  rw [hper, evalGen_foldl_eq_take]
  simp only [List.nil_append, List.length_nil, Nat.sub_zero]
  apply mem_take_flatMap_replicate (n / 16) hdiv evalCombos n _ c hc
  have hlen : evalCombos.length = 16 := by decide
  have hmul16 : n / 16 * 16 ≤ n := Nat.div_mul_le_self n 16
  rw [hlen]
  have : (16 - 1) * (n / 16) + 1 ≤ 16 * (n / 16) := by
    have := hdiv; omega
  omega

/-- C8 witness: at n = 16 the last grid combination is indeed generated. -/
theorem c8_eval_grid_coverage_witness :
    16 ≤ (16 : Nat) ∧
    ("extreme", "evasive_targets") ∈ generateEvaluationScenarios 16 :=
  ⟨le_refl 16, c8_eval_grid_coverage 16 (le_refl 16)
    ("extreme", "evasive_targets") (by decide)⟩

/-! ## C9: threat priority of the expert policy -/

/-- C9 (counterexample): two missiles whose threat levels differ (the state
encoder maps "critical" to 4 and "low" to 1) both receive priority 2 from
`_get_missile_priority` — 2 is not reserved for unknown levels — and
`_sort_missiles_by_threat` leaves the lower-threat missile ranked first. -/
theorem c9_counterexample :
    encodeThreatLevel "critical" = 4 ∧
    encodeThreatLevel "low" = 1 ∧
    getMissilePriority { missile_id := "m_crit", threat_level := "critical" } [] =
      getMissilePriority { missile_id := "m_low", threat_level := "low" } [] ∧
    (sortMissilesByThreat
      [{ missile_id := "m_low", threat_level := "low" },
       { missile_id := "m_crit", threat_level := "critical" }] []).map
        (fun m => m.missile_id) = ["m_low", "m_crit"] := by
  refine ⟨by decide, by decide, rfl, rfl⟩

/-- Inserting under the constant priority key always prepends. -/
theorem insertByPriorityDesc_eq_cons (state : StateVec) (m : Missile) :
    ∀ l : List Missile, insertByPriorityDesc state m l = m :: l := by
  intro l
  cases l with
  | nil => rfl
  | cons y ys => simp [insertByPriorityDesc, getMissilePriority]

/-- C9 (amended): `_get_missile_priority` returns the constant default
priority 2 for every missile and state, whatever the threat level, so the
threat-ranking of `_sort_missiles_by_threat` is the identity: the snapshot
order is kept and no threat level ranks before another. -/
theorem c9_priority_constant :
    (∀ (m : Missile) (state : StateVec), getMissilePriority m state = 2) ∧
    (∀ (missiles : List Missile) (state : StateVec),
      sortMissilesByThreat missiles state = missiles) := by
  refine ⟨fun m state => rfl, fun missiles state => ?_⟩
  induction missiles with
  | nil => rfl
  | cons m rest ih =>
    rw [sortMissilesByThreat, List.foldr_cons]
    rw [sortMissilesByThreat] at ih
    rw [ih, insertByPriorityDesc_eq_cons]

/-! ## C5: coverage ratio of the visibility extraction -/

/-- The record-fill fold preserves the row count of the matrix. -/
theorem fill_preserves_length (satIds misIds : List String)
    (numSats numMissiles : Nat) :
    ∀ (vis : List VisRecord) (m : List (List Nat)),
      (vis.foldl (fun m v =>
        match satIds.indexOf? v.satellite_id, misIds.indexOf? v.missile_id with
        | some i, some j =>
          if i < numSats ∧ j < numMissiles then
            setMat m i j (if v.has_visibility then 1 else 0)
          else m
        | _, _ => m) m).length = m.length := by
  intro vis
  induction vis with
  | nil => intro m; rfl
  | cons v rest ih =>
    intro m
    rw [List.foldl_cons, ih]
    cases hsi : satIds.indexOf? v.satellite_id with
    | none => rfl
    | some i =>
      cases hmi : misIds.indexOf? v.missile_id with
      | none => rfl
      | some j =>
        by_cases hb : i < numSats ∧ j < numMissiles
        · simp [hb, setMat]
        · simp [hb]

/-- With both counts positive, `_create_visibility_matrix` has one row per
satellite. -/
theorem createVisibilityMatrix_length (vis : List VisRecord)
    (numSats numMissiles : Nat) (hs : 0 < numSats) (hm : 0 < numMissiles) :
    (createVisibilityMatrix vis numSats numMissiles).length = numSats := by
  unfold createVisibilityMatrix
  have hcond : ¬ (numSats = 0 ∨ numMissiles = 0) := by omega
  rw [if_neg hcond]
  rw [fill_preserves_length]
  exact List.length_replicate numSats _

/-- C5: the `coverage_ratio` produced by `_extract_visibility_states` is 0
whenever the snapshot has zero satellites or zero threats, and in general it
is the number of covered visible pairs divided by
satellite_count × threat_count. -/
theorem c5_coverage_ratio (vis : List VisRecord) (numSats numMissiles : Nat) :
    ((numSats = 0 ∨ numMissiles = 0) →
      coverageRatioOf vis numSats numMissiles = 0) ∧
    (0 < numSats → 0 < numMissiles →
      coverageRatioOf vis numSats numMissiles =
        (matrixSum (createVisibilityMatrix vis numSats numMissiles) : ℚ) /
          ((numSats * numMissiles : Nat) : ℚ)) := by
  constructor
  · intro hz
    have hmat : createVisibilityMatrix vis numSats numMissiles = [] := by
      unfold createVisibilityMatrix
      rw [if_pos hz]
    simp [coverageRatioOf, extractVisibilityStates, hmat, getNum, lookupSt]
  · intro hs hm
    have hlen := createVisibilityMatrix_length vis numSats numMissiles hs hm
    have hne : createVisibilityMatrix vis numSats numMissiles ≠ [] := by
      intro h
      rw [h] at hlen
      simp at hlen
      omega
    have hpos : 0 < numSats * numMissiles := Nat.mul_pos hs hm
    simp only [coverageRatioOf, extractVisibilityStates, if_pos hne,
      if_pos hpos, getNum, lookupSt]
    simp

/-- C5 witness: two satellites and one threat, full visibility, gives
coverage ratio 2/2 = 1; two satellites and zero threats give 0. -/
theorem c5_coverage_ratio_witness :
    (0 = 0 ∨ (0 : Nat) = 0) ∧
    coverageRatioOf
      [{ satellite_id := "s1", missile_id := "m1", has_visibility := true },
       { satellite_id := "s2", missile_id := "m1", has_visibility := true }] 2 0
      = 0 ∧
    0 < (2 : Nat) ∧ 0 < (1 : Nat) ∧
    coverageRatioOf
      [{ satellite_id := "s1", missile_id := "m1", has_visibility := true },
       { satellite_id := "s2", missile_id := "m1", has_visibility := true }] 2 1
      = 1 := by
  refine ⟨Or.inr rfl, ?_, by decide, by decide, ?_⟩
  · exact (c5_coverage_ratio _ 2 0).1 (Or.inr rfl)
  · have h := (c5_coverage_ratio
      [{ satellite_id := "s1", missile_id := "m1", has_visibility := true },
       { satellite_id := "s2", missile_id := "m1", has_visibility := true }]
      2 1).2 (by decide) (by decide)
    have hm : matrixSum (createVisibilityMatrix
      [{ satellite_id := "s1", missile_id := "m1", has_visibility := true },
       { satellite_id := "s2", missile_id := "m1", has_visibility := true }]
      2 1) = 2 := by decide
    rw [h, hm]
    norm_num

/-! ## C4: the quality-score formula -/

/-- A present-over-total field ratio (1 on an empty field list) lies in
`[0,1]`. -/
theorem ratio_bounds (l : List String) (p : String → Bool) :
    0 ≤ (if l.isEmpty then (1:ℚ)
      else ((l.filter p).length : ℚ) / (l.length : ℚ)) ∧
    (if l.isEmpty then (1:ℚ)
      else ((l.filter p).length : ℚ) / (l.length : ℚ)) ≤ 1 := by
  by_cases h : l.isEmpty
  · simp [h]
  · simp only [h, Bool.false_eq_true, if_false]
    have hlen : 0 < l.length := by
      cases l with
      | nil => simp at h
      | cons a t => simp
    have hq : (0:ℚ) < (l.length : ℚ) := by exact_mod_cast hlen
    constructor
    · positivity
    · rw [div_le_one hq]
      exact_mod_cast List.length_filter_le p l

/-- The completeness score, unfolded to the two field ratios. -/
theorem checkDataCompleteness_score (cfg : CompletenessCfg)
    (dp : RLHFDataPoint) :
    (checkDataCompleteness cfg dp).completeness_score =
      8/10 * (if cfg.required_fields.isEmpty then (1:ℚ)
        else ((cfg.required_fields.filter
          (fun f => checkFieldExists dp f)).length : ℚ) /
          (cfg.required_fields.length : ℚ)) +
      2/10 * (if cfg.optional_fields.isEmpty then (1:ℚ)
        else ((cfg.optional_fields.filter
          (fun f => checkFieldExists dp f)).length : ℚ) /
          (cfg.optional_fields.length : ℚ)) := rfl

/-- The completeness score `0.8·required_ratio + 0.2·optional_ratio` always
lies in `[0,1]`. -/
theorem completeness_score_bounds (cfg : CompletenessCfg) (dp : RLHFDataPoint) :
    0 ≤ (checkDataCompleteness cfg dp).completeness_score ∧
    (checkDataCompleteness cfg dp).completeness_score ≤ 1 := by
  have hr := ratio_bounds cfg.required_fields (fun f => checkFieldExists dp f)
  have ho := ratio_bounds cfg.optional_fields (fun f => checkFieldExists dp f)
  rw [checkDataCompleteness_score]
  constructor
  · linarith [hr.1, ho.1]
  · linarith [hr.2, ho.2]

/-- `calculate_quality_score` never hits its upper clamp when the
completeness factor is in `[0,1]`: it equals
`max 0 ((1 − 0.3E − 0.1W − 0.05A) · completeness)`. -/
theorem calculateQualityScore_eq (e w a : List String) (c : ℚ)
    (h0 : 0 ≤ c) (h1 : c ≤ 1) :
    calculateQualityScore e w a c =
      max 0 ((1 - (e.length : ℚ) * (3/10) - (w.length : ℚ) * (1/10)
        - (a.length : ℚ) * (5/100)) * c) := by
  unfold calculateQualityScore
  have hs1 : 1 - (e.length : ℚ) * (3/10) - (w.length : ℚ) * (1/10)
      - (a.length : ℚ) * (5/100) ≤ 1 := by
    have he : (0:ℚ) ≤ (e.length : ℚ) * (3/10) := by positivity
    have hw : (0:ℚ) ≤ (w.length : ℚ) * (1/10) := by positivity
    have ha : (0:ℚ) ≤ (a.length : ℚ) * (5/100) := by positivity
    linarith
  have hle := mul_le_mul_of_nonneg_right hs1 h0
  have : (1 - (e.length : ℚ) * (3/10) - (w.length : ℚ) * (1/10)
      - (a.length : ℚ) * (5/100)) * c ≤ 1 := by linarith
  rw [min_eq_right this]

/-- C4: for every validation result returned by the data-quality gate, the
validation score equals `max 0` of `(1 − 0.3·#errors − 0.1·#warnings −
0.05·#anomalies)` multiplied by the completeness score: it starts at 1.0, is
reduced per finding, multiplied by the completeness score and floored at 0
(the upper clamp of the source can never bind). -/
theorem c4_validation_score (cfg : QualityCfg) (sq : ℚ → ℚ)
    (vst : ValidatorState) (dp : RLHFDataPoint) :
    ((validateRLHFDataPoint cfg sq vst dp).1).validation_score =
      max 0 ((1
        - (((validateRLHFDataPoint cfg sq vst dp).1).errors.length : ℚ) * (3/10)
        - (((validateRLHFDataPoint cfg sq vst dp).1).warnings.length : ℚ) * (1/10)
        - (((validateRLHFDataPoint cfg sq vst dp).1).anomalies.length : ℚ) * (5/100))
        * ((validateRLHFDataPoint cfg sq vst dp).1).completeness.completeness_score) := by
  have hb := completeness_score_bounds cfg.completeness_checks dp
  exact calculateQualityScore_eq _ _ _ _ hb.1 hb.2

/-! ## C6: anomaly detection is silent below 10 history records -/

/-- C6: while the validator's rolling history holds fewer than 10 records,
the anomaly list of every validation result is empty, whatever the data
point's reward. -/
theorem c6_anomaly_silence (cfg : QualityCfg) (sq : ℚ → ℚ)
    (vst : ValidatorState) (dp : RLHFDataPoint)
    (h : vst.historical_data.length < 10) :
    ((validateRLHFDataPoint cfg sq vst dp).1).anomalies = [] := by
  have hdet : detectAnomalies cfg.anomaly_detection sq vst dp = ([], 0) := by
    unfold detectAnomalies
    rw [if_pos h]
  show (if cfg.anomaly_detection.statistical_outliers then
    (detectAnomalies cfg.anomaly_detection sq vst dp).1 else []) = []
  rw [hdet]
  by_cases hf : cfg.anomaly_detection.statistical_outliers <;> simp [hf]

/-- C6 witness: 9 history records of reward 0 and an incoming reward of
1000000 (an arbitrarily extreme outlier relative to the history), with the
statistical-outlier detector enabled — still no anomaly. -/
theorem c6_anomaly_silence_witness :
    (ValidatorState.mk (List.replicate 9
      { timestamp := 0, reward := 0, state := [], validation_score := 1 })
      ).historical_data.length < 10 ∧
    ((validateRLHFDataPoint
      { anomaly_detection :=
        { statistical_outliers := true
          physical_constraints := true
          temporal_anomalies := true } }
      (fun _ => 0)
      (ValidatorState.mk (List.replicate 9
        { timestamp := 0, reward := 0, state := [], validation_score := 1 }))
      { timestamp := 100, state := [], action := {}, reward := 1000000,
        next_state := [], done := false, info := { base_data := {} } }).1
      ).anomalies = [] :=
  ⟨by decide, c6_anomaly_silence _ _ _ _ (by decide)⟩

/-! ## C3: reward components are clipped to [0,1] before weighting -/

/-- `np.clip(·, 0, 1)` bounds. -/
theorem clip01_bounds (x : ℚ) : 0 ≤ clip01 x ∧ clip01 x ≤ 1 :=
  ⟨le_max_left 0 _, max_le (by norm_num) (min_le_left 1 x)⟩

/-- C3: each of the three reward components — tracking performance, resource
efficiency, mission completion — lies in `[0,1]` before being multiplied by
its weight, and the total reward is exactly the weighted sum
`0.4·tracking + 0.3·resource + 0.3·completion` minus the penalty terms (a
well-defined rational, hence finite, for every finite-valued input). -/
theorem c3_reward_components (cfg : RewardCfg) (sq : ℚ → ℚ) (state : StateVec)
    (action : Action) (bd : Snapshot) :
    (0 ≤ trackingPerformanceReward cfg.tracking_performance state action bd ∧
      trackingPerformanceReward cfg.tracking_performance state action bd ≤ 1) ∧
    (0 ≤ resourceEfficiencyReward cfg.resource_efficiency action ∧
      resourceEfficiencyReward cfg.resource_efficiency action ≤ 1) ∧
    (0 ≤ missionCompletionReward cfg.mission_completion sq state action bd ∧
      missionCompletionReward cfg.mission_completion sq state action bd ≤ 1) ∧
    calculateTotalReward cfg sq state action bd =
      4/10 * trackingPerformanceReward cfg.tracking_performance state action bd +
      3/10 * resourceEfficiencyReward cfg.resource_efficiency action +
      3/10 * missionCompletionReward cfg.mission_completion sq state action bd -
      penaltyTerms state action :=
  ⟨clip01_bounds _, clip01_bounds _, clip01_bounds _, rfl⟩

/-! ## C10: configuration-determined state shape -/

/-- The satellite keys the configuration enables. -/
def satCfgKeys (c : SatStateCfg) : List String :=
  (if c.position then ["satellite_positions"] else []) ++
  (if c.velocity then ["satellite_velocities"] else []) ++
  (if c.attitude then ["satellite_attitudes"] else []) ++
  (if c.orbital_elements then ["satellite_orbital_elements"] else []) ++
  (if c.power_status then ["satellite_power_states"] else []) ++
  (if c.payload_status then ["satellite_payload_states"] else [])

/-- The missile keys the configuration enables. -/
def misCfgKeys (c : MisStateCfg) : List String :=
  (if c.position then ["missile_positions"] else []) ++
  (if c.velocity then ["missile_velocities"] else []) ++
  (if c.trajectory_prediction then ["missile_trajectory_predictions"] else []) ++
  (if c.threat_level then ["missile_threat_levels"] else []) ++
  (if c.flight_phase then ["missile_flight_phases"] else []) ++
  (if c.remaining_time then ["missile_remaining_times"] else [])

/-- The visibility keys, present unconditionally. -/
def visKeys : List String :=
  ["visibility_matrix", "coverage_ratio", "satellite_coverage_counts",
   "missile_coverage_counts"]

/-- The environment keys the configuration enables. -/
def envCfgKeys (c : EnvStateCfg) : List String :=
  (if c.time_of_day then ["time_of_day"] else []) ++
  ["simulation_progress"] ++
  (if c.sun_position then ["sun_elevation"] else []) ++
  (if c.earth_shadow then ["earth_shadow"] else [])

/-- The mission keys the configuration enables. -/
def missionCfgKeys (c : MissionStateCfg) : List String :=
  ["active_satellites", "active_missiles", "mission_progress"] ++
  (if c.tracking_assignments then ["active_tracking_assignments"] else []) ++
  (if c.resource_utilization then ["power_utilization"] else []) ++
  (if c.coverage_gaps then ["coverage_gap_ratio"] else [])

/-- The full key set determined by a configuration alone. -/
def configKeys (cfg : StateSpaceCfg) : List String :=
  satCfgKeys cfg.satellite_states ++ misCfgKeys cfg.missile_states ++
  visKeys ++ envCfgKeys cfg.environment_states ++
  missionCfgKeys cfg.mission_states

/-- Keys distribute over the group concatenation. -/
theorem stateKeys_append (a b : StateVec) :
    stateKeys (a ++ b) = stateKeys a ++ stateKeys b :=
  List.map_append _ a b

/-- With at least one satellite, the satellite block's keys are exactly the
configured ones. -/
theorem keys_extractSatelliteStates (c : SatStateCfg) (sats : List Satellite)
    (h : sats.isEmpty = false) :
    stateKeys (extractSatelliteStates c sats) = satCfgKeys c := by
  obtain ⟨p, v, a, o, pw, pl⟩ := c
  unfold extractSatelliteStates satCfgKeys stateKeys
  rw [h]
  cases p <;> cases v <;> cases a <;> cases o <;> cases pw <;> cases pl <;> rfl

/-- With at least one missile, the missile block's keys are exactly the
configured ones. -/
theorem keys_extractMissileStates (c : MisStateCfg) (missiles : List Missile)
    (h : missiles.isEmpty = false) :
    stateKeys (extractMissileStates c missiles) = misCfgKeys c := by
  obtain ⟨p, v, tp, tl, fp, rt⟩ := c
  unfold extractMissileStates misCfgKeys stateKeys
  rw [h]
  cases p <;> cases v <;> cases tp <;> cases tl <;> cases fp <;> cases rt <;> rfl

/-- The visibility block's keys are the same four keys in both branches. -/
theorem keys_extractVisibilityStates (vis : List VisRecord) (a b : Nat) :
    stateKeys (extractVisibilityStates vis a b) = visKeys := by
  unfold extractVisibilityStates stateKeys visKeys
  by_cases h : createVisibilityMatrix vis a b ≠ [] <;> simp [h]

/-- The environment block's keys depend only on the configuration. -/
theorem keys_extractEnvironmentStates (c : EnvStateCfg) (sin2pi : ℚ → ℚ)
    (bd : Snapshot) :
    stateKeys (extractEnvironmentStates c sin2pi bd) = envCfgKeys c := by
  obtain ⟨t, s, e⟩ := c
  unfold extractEnvironmentStates envCfgKeys stateKeys
  cases t <;> cases s <;> cases e <;> rfl

/-- The mission block's keys depend only on the configuration. -/
theorem keys_extractMissionStates (c : MissionStateCfg) (bd : Snapshot)
    (sats : List Satellite) (missiles : List Missile) :
    stateKeys (extractMissionStates c bd sats missiles) = missionCfgKeys c := by
  obtain ⟨ta, ru, cg⟩ := c
  unfold extractMissionStates missionCfgKeys stateKeys
  cases ta <;> cases ru <;> cases cg <;> rfl

/-- C10 (counterexample): with every satellite field group disabled, a
snapshot with zero satellites still yields all six satellite keys (defaulted
to empty containers) — in particular the disabled `satellite_positions` is
present — while a snapshot with one satellite omits them, so the key set is
not determined by the configuration alone. -/
theorem c10_counterexample :
    "satellite_positions" ∈
      stateKeys (extractStateVector {} (fun _ => 0) {}) ∧
    "satellite_positions" ∉
      stateKeys (extractStateVector {} (fun _ => 0)
        { satellites := [{ satellite_id := "s1" }],
          missiles := [{ missile_id := "m1" }] }) ∧
    stateKeys (extractStateVector {} (fun _ => 0) {}) ≠
      stateKeys (extractStateVector {} (fun _ => 0)
        { satellites := [{ satellite_id := "s1" }],
          missiles := [{ missile_id := "m1" }] }) := by
  refine ⟨by decide, by decide, by decide⟩

/-- C10 (amended): for snapshots with at least one satellite and at least one
threat, a disabled field group is absent and the key set of the extracted
state is determined by the configuration alone; when the satellite (or
missile) list is empty, the source instead emits all six keys of that group
with empty defaults, regardless of the flags. -/
theorem c10_state_shape (cfg : StateSpaceCfg) (sin2pi : ℚ → ℚ) (bd : Snapshot)
    (hs : bd.satellites.isEmpty = false) (hm : bd.missiles.isEmpty = false) :
    stateKeys (extractStateVector cfg sin2pi bd) = configKeys cfg := by
  unfold extractStateVector configKeys
  rw [stateKeys_append, stateKeys_append, stateKeys_append, stateKeys_append,
    keys_extractSatelliteStates cfg.satellite_states bd.satellites hs,
    keys_extractMissileStates cfg.missile_states bd.missiles hm,
    keys_extractVisibilityStates, keys_extractEnvironmentStates,
    keys_extractMissionStates]

/-- C10 witness: the key-set of a one-satellite / one-missile snapshot under
a mixed configuration is the configured key list. -/
theorem c10_state_shape_witness :
    ([{ satellite_id := "s1" }] : List Satellite).isEmpty = false ∧
    ([{ missile_id := "m1" }] : List Missile).isEmpty = false ∧
    stateKeys (extractStateVector
      { satellite_states := { position := true },
        missile_states := { threat_level := true } } (fun _ => 0)
      { satellites := [{ satellite_id := "s1" }],
        missiles := [{ missile_id := "m1" }] }) =
      configKeys
        { satellite_states := { position := true },
          missile_states := { threat_level := true } } :=
  ⟨rfl, rfl, c10_state_shape _ _ _ rfl rfl⟩

/-! ## C7: starting an episode while one is open -/

/-- A concrete already-collected data point, used by the double-open
scenario. -/
def dpOpen : RLHFDataPoint :=
  { timestamp := 0, state := [], action := {}, reward := 5, next_state := []
    done := false, info := { base_data := {} } }

/-- A concrete open episode holding one collected point. -/
def epOpen : Episode :=
  { episode_id := "episode_n1_t1", scenario_type := "t1", start_time := 0
    data_points := [dpOpen], total_reward := 5 }

/-- A collector whose episode slot is occupied by `epOpen`. -/
def stOpen : CollectorState := { current_episode := some epOpen }

/-- C7 (counterexample): with an episode open that already holds one data
point, `start_episode` returns normally — no error value, no refusal — and
silently installs a fresh empty episode; the open episode and its collected
point are discarded (the completed-episode list stays empty). -/
theorem c7_counterexample :
    (stOpen.current_episode.map (fun e => e.data_points.length)) = some 1 ∧
    (startEpisode stOpen "t2" "n2" 3).1 = "episode_n2_t2" ∧
    ((startEpisode stOpen "t2" "n2" 3).2.current_episode.map
      (fun e => (e.episode_id, e.data_points.length))) =
      some ("episode_n2_t2", 0) ∧
    (startEpisode stOpen "t2" "n2" 3).2.episodes.length = 0 := by
  refine ⟨rfl, rfl, rfl, rfl⟩

/-- C7 (amended): the collector does hold at most one open episode (a single
slot), but `start_episode` surfaces no error when one is already open: it
always succeeds, replaces the slot with a fresh episode, and leaves the
completed-episode list untouched — the previously open episode is silently
dropped. -/
theorem c7_start_episode_overwrites (st : CollectorState)
    (stype now_str : String) (t : ℚ) :
    (startEpisode st stype now_str t).1 =
      "episode_" ++ now_str ++ "_" ++ stype ∧
    (startEpisode st stype now_str t).2.current_episode = some
      { episode_id := "episode_" ++ now_str ++ "_" ++ stype,
        scenario_type := stype, start_time := t } ∧
    (startEpisode st stype now_str t).2.episodes = st.episodes :=
  ⟨rfl, rfl, rfl⟩

/-! ## C1, C2: the collection pipeline and episode accumulation -/

/-- `_update_average_statistics` only touches the two averages. -/
theorem updateAverageStatistics_counts (stats : CollectionStats)
    (rewards : List ℚ) (validations : List ValidationResult) :
    (updateAverageStatistics stats rewards validations).total_data_points =
      stats.total_data_points ∧
    (updateAverageStatistics stats rewards validations).valid_data_points =
      stats.valid_data_points ∧
    (updateAverageStatistics stats rewards validations).invalid_data_points =
      stats.invalid_data_points := by
  unfold updateAverageStatistics
  by_cases h1 : rewards.isEmpty <;> by_cases h2 : validations.isEmpty <;>
    simp [h1, h2]

/-- One successful `collect_rlhf_data_point` call on an open episode: the
produced point carries its validation result, is appended to the open
episode (whose total reward grows by the point's reward) and the statistics
counters advance — validity only selects which of the valid/invalid counters
is bumped. -/
theorem collect_step_spec (cfg : RLHFConfig) (sq sin2pi : ℚ → ℚ)
    (st : CollectorState) (action : Action) (bd : Snapshot) (t : ℚ)
    (f1 f2 : Bool) (pr : ℚ) (ep : Episode)
    (hep : st.current_episode = some ep) :
    ∃ (dp : RLHFDataPoint) (vr : ValidationResult),
      (collectRLHFDataPoint cfg sq sin2pi st action (some bd) t f1 f2 pr).1 =
        some dp ∧
      dp.info.validation_result = some vr ∧
      (collectRLHFDataPoint cfg sq sin2pi st action (some bd) t f1 f2 pr
        ).2.current_episode = some
        { ep with data_points := ep.data_points ++ [dp]
                  total_reward := ep.total_reward + dp.reward } ∧
      (collectRLHFDataPoint cfg sq sin2pi st action (some bd) t f1 f2 pr
        ).2.collection_stats.total_data_points =
        st.collection_stats.total_data_points + 1 ∧
      (vr.is_valid = true →
        (collectRLHFDataPoint cfg sq sin2pi st action (some bd) t f1 f2 pr
          ).2.collection_stats.valid_data_points =
          st.collection_stats.valid_data_points + 1) ∧
      (vr.is_valid = false →
        (collectRLHFDataPoint cfg sq sin2pi st action (some bd) t f1 f2 pr
          ).2.collection_stats.invalid_data_points =
          st.collection_stats.invalid_data_points + 1) := by
  obtain ⟨cur, eps, sh, ah, rh, vh, stats, vst⟩ := st
  simp only [CollectorState.current_episode] at hep
  subst hep
  refine ⟨_, _, rfl, rfl, rfl, ?_, ?_, ?_⟩
  · show (updateAverageStatistics _ _ _).total_data_points = _
    rw [(updateAverageStatistics_counts _ _ _).1]
  · intro h
    show (updateAverageStatistics _ _ _).valid_data_points = _
    rw [(updateAverageStatistics_counts _ _ _).2.1, h]
    simp
  · intro h
    show (updateAverageStatistics _ _ _).invalid_data_points = _
    rw [(updateAverageStatistics_counts _ _ _).2.2, h]
    simp

/-- C1: every data point produced by `collect_rlhf_data_point` on an open
episode — in particular one whose validation result has `is_valid = false`,
such as one failing a completeness check — is appended to the open episode
and counted in the collection statistics (total always, the invalid counter
exactly when invalid), with the validation result (score and reasons)
attached in its info payload; it is never dropped. -/
theorem c1_invalid_points_retained (cfg : RLHFConfig) (sq sin2pi : ℚ → ℚ)
    (st : CollectorState) (action : Action) (bd : Snapshot) (t : ℚ)
    (f1 f2 : Bool) (pr : ℚ) (ep : Episode)
    (hep : st.current_episode = some ep) :
    ∃ (dp : RLHFDataPoint) (vr : ValidationResult),
      (collectRLHFDataPoint cfg sq sin2pi st action (some bd) t f1 f2 pr).1 =
        some dp ∧
      dp.info.validation_result = some vr ∧
      (collectRLHFDataPoint cfg sq sin2pi st action (some bd) t f1 f2 pr
        ).2.current_episode = some
        { ep with data_points := ep.data_points ++ [dp]
                  total_reward := ep.total_reward + dp.reward } ∧
      (collectRLHFDataPoint cfg sq sin2pi st action (some bd) t f1 f2 pr
        ).2.collection_stats.total_data_points =
        st.collection_stats.total_data_points + 1 ∧
      (vr.is_valid = false →
        (collectRLHFDataPoint cfg sq sin2pi st action (some bd) t f1 f2 pr
          ).2.collection_stats.invalid_data_points =
          st.collection_stats.invalid_data_points + 1) := by
  obtain ⟨dp, vr, h1, h2, h3, h4, _h5, h6⟩ :=
    collect_step_spec cfg sq sin2pi st action bd t f1 f2 pr ep hep
  exact ⟨dp, vr, h1, h2, h3, h4, h6⟩

/-- `splitDotAux` always produces at least one segment. -/
theorem splitDotAux_ne_nil : ∀ (cs acc : List Char), splitDotAux cs acc ≠ [] := by
  intro cs
  induction cs with
  | nil => intro acc h; simp [splitDotAux] at h
  | cons c rest ih =>
    intro acc h
    by_cases hc : c = '.'
    · rw [splitDotAux, if_pos hc] at h
      simp at h
    · rw [splitDotAux, if_neg hc] at h
      exact ih (c :: acc) h

/-- A dotted path into the state never resolves on an empty state mapping. -/
theorem checkFieldExists_state_empty (dp : RLHFDataPoint)
    (hdp : dp.state = []) (k : String) :
    checkFieldExists dp ("state." ++ k) = false := by
  unfold checkFieldExists
  have h : splitDot ("state." ++ k) =
    "state" :: (splitDotAux k.data []).map String.mk := rfl
  rw [h]
  rcases hx : (splitDotAux k.data []).map String.mk with _ | ⟨k1, rest⟩
  · exact absurd (List.map_eq_nil_iff.mp hx) (splitDotAux_ne_nil k.data [])
  · rcases rest with _ | ⟨k2, rest2⟩
    · simp [lookupSt, hdp]
    · rfl

/-- Supporting fact for the spec's `state={}` scenario: a data point with an
empty state mapping fails validation — with at least one completeness error —
under every configuration whose required fields include a dotted path into
the state. -/
theorem validate_empty_state_invalid (qcfg : QualityCfg) (sq : ℚ → ℚ)
    (vst : ValidatorState) (dp : RLHFDataPoint) (hdp : dp.state = [])
    (k : String)
    (hreq : ("state." ++ k) ∈ qcfg.completeness_checks.required_fields) :
    ((validateRLHFDataPoint qcfg sq vst dp).1).is_valid = false ∧
    ((validateRLHFDataPoint qcfg sq vst dp).1).errors ≠ [] := by
  have hmem : ("state." ++ k) ∈
      (checkDataCompleteness qcfg.completeness_checks dp).missing_fields := by
    show ("state." ++ k) ∈ qcfg.completeness_checks.required_fields.filter
      (fun f => ¬ checkFieldExists dp f)
    refine List.mem_filter.mpr ⟨hreq, ?_⟩
    simp [checkFieldExists_state_empty dp hdp k]
  have hne : (checkDataCompleteness qcfg.completeness_checks dp).missing_fields
      ≠ [] := List.ne_nil_of_mem hmem
  have hcomp : (checkDataCompleteness qcfg.completeness_checks dp).is_complete
      = false := by
    show decide ((checkDataCompleteness
      qcfg.completeness_checks dp).missing_fields.isEmpty = true ∧ _) = false
    rw [decide_eq_false_iff_not]
    rintro ⟨h1, _⟩
    exact hne (List.isEmpty_iff.mp h1)
  constructor
  · show ((checkDataCompleteness qcfg.completeness_checks dp).is_complete &&
      (validateDataFormat dp).is_valid) = false
    rw [hcomp, Bool.false_and]
  · show (checkDataCompleteness qcfg.completeness_checks dp).missing_fields ++
      (validateDataFormat dp).format_errors ≠ []
    intro h
    exact hne (List.append_eq_nil.mp h).1

/-- A configuration that requires a state field no extracted state carries,
so every collected point fails validation. -/
def cfgInvalid : RLHFConfig :=
  { data_quality :=
    { completeness_checks := { required_fields := ["state.no_such_field"] } } }

/-- A small concrete snapshot: one satellite, one missile, full visibility. -/
def bdFix : Snapshot :=
  { satellites := [{ satellite_id := "s1" }]
    missiles := [{ missile_id := "m1" }]
    visibility :=
      [{ satellite_id := "s1", missile_id := "m1", has_visibility := true }] }

/-- A freshly opened, still empty episode. -/
def epFresh : Episode :=
  { episode_id := "episode_n_t", scenario_type := "t", start_time := 0 }

/-- A collector whose open episode is `epFresh`. -/
def stFresh : CollectorState := { current_episode := some epFresh }

/-- C1 witness: collecting under `cfgInvalid` produces a point that is
flagged invalid yet appended and counted. -/
theorem c1_invalid_points_retained_witness :
    stFresh.current_episode = some epFresh ∧
    ((collectRLHFDataPoint cfgInvalid (fun _ => 0) (fun _ => 0) stFresh {}
      (some bdFix) 1 false false 0).1.map
        (fun dp => dp.info.validation_result.map (fun v => v.is_valid))) =
      some (some false) ∧
    (∃ (dp : RLHFDataPoint) (vr : ValidationResult),
      (collectRLHFDataPoint cfgInvalid (fun _ => 0) (fun _ => 0) stFresh {}
        (some bdFix) 1 false false 0).1 = some dp ∧
      dp.info.validation_result = some vr ∧
      (collectRLHFDataPoint cfgInvalid (fun _ => 0) (fun _ => 0) stFresh {}
        (some bdFix) 1 false false 0).2.current_episode = some
        { epFresh with data_points := epFresh.data_points ++ [dp]
                       total_reward := epFresh.total_reward + dp.reward } ∧
      (collectRLHFDataPoint cfgInvalid (fun _ => 0) (fun _ => 0) stFresh {}
        (some bdFix) 1 false false 0).2.collection_stats.total_data_points =
        stFresh.collection_stats.total_data_points + 1 ∧
      (vr.is_valid = false →
        (collectRLHFDataPoint cfgInvalid (fun _ => 0) (fun _ => 0) stFresh {}
          (some bdFix) 1 false false 0).2.collection_stats.invalid_data_points =
          stFresh.collection_stats.invalid_data_points + 1)) :=
  ⟨rfl, by decide,
   c1_invalid_points_retained cfgInvalid (fun _ => 0) (fun _ => 0) stFresh {}
     bdFix 1 false false 0 epFresh rfl⟩

/-- Appending through a run of successful collect calls: the open episode
accumulates exactly one point per call and its running total grows by the
rewards of the appended points. -/
theorem collectMany_episode (cfg : RLHFConfig) (sq sin2pi : ℚ → ℚ) :
    ∀ (steps : List CollectStep) (st : CollectorState) (ep : Episode),
      st.current_episode = some ep →
      ∃ pts : List RLHFDataPoint,
        (collectMany cfg sq sin2pi st steps).current_episode = some
          { ep with data_points := ep.data_points ++ pts
                    total_reward := ep.total_reward +
                      (pts.map (fun d => d.reward)).sum } ∧
        pts.length = steps.length := by
  intro steps
  induction steps with
  | nil =>
    intro st ep hep
    refine ⟨[], ?_, rfl⟩
    simpa using hep
  | cons step rest ih =>
    intro st ep hep
    obtain ⟨dp, vr, _h1, _h2, h3, _h4, _h5, _h6⟩ :=
      collect_step_spec cfg sq sin2pi st step.action step.snapshot step.time
        step.sim_finished step.coll_finished step.progress ep hep
    obtain ⟨pts, hfinal, hlen⟩ := ih
      (collectRLHFDataPoint cfg sq sin2pi st step.action (some step.snapshot)
        step.time step.sim_finished step.coll_finished step.progress).2 _ h3
    refine ⟨dp :: pts, ?_, by simp [hlen]⟩
    show (collectMany cfg sq sin2pi
      (collectRLHFDataPoint cfg sq sin2pi st step.action (some step.snapshot)
        step.time step.sim_finished step.coll_finished step.progress).2
      rest).current_episode = _
    rw [hfinal]
    simp [List.append_assoc, add_assoc]

/-- `end_episode` on an open episode freezes and returns it. -/
theorem endEpisode_spec (st : CollectorState) (ep : Episode)
    (hep : st.current_episode = some ep) (success : Bool) (t : ℚ) :
    (endEpisode st success t).1 =
      some { ep with end_time := some t, success := success } := by
  unfold endEpisode
  rw [hep]

/-- C2: starting an episode, making any sequence of successful
`collect_rlhf_data_point` calls and ending the episode yields an episode
with exactly one data point per collect call whose `total_reward` is the sum
of the rewards of its data points. -/
theorem c2_episode_reward_sum (cfg : RLHFConfig) (sq sin2pi : ℚ → ℚ)
    (st0 : CollectorState) (stype now_str : String) (t0 : ℚ)
    (steps : List CollectStep) (success : Bool) (tEnd : ℚ) :
    ∃ e : Episode,
      (endEpisode
        (collectMany cfg sq sin2pi (startEpisode st0 stype now_str t0).2 steps)
        success tEnd).1 = some e ∧
      e.data_points.length = steps.length ∧
      e.total_reward = (e.data_points.map (fun d => d.reward)).sum := by
  have hstart : (startEpisode st0 stype now_str t0).2.current_episode = some
    { episode_id := "episode_" ++ now_str ++ "_" ++ stype
      scenario_type := stype, start_time := t0 } := rfl
  obtain ⟨pts, hcur, hlen⟩ :=
    collectMany_episode cfg sq sin2pi steps _ _ hstart
  refine ⟨_, endEpisode_spec _ _ hcur success tEnd, ?_, ?_⟩
  · simpa using hlen
  · simp

end DataGen
